import Mathlib

/-!
Verification of the ingestion-engine core pipeline, shallowly embedded from the
Rust sources: the SDK-event validator and transform (crates/core/src/sdk_event.rs),
the ingest HTTP handler and its response shaping (crates/api/src/routes/ingest.rs,
crates/api/src/response.rs), the Redpanda producer (crates/redpanda/src/producer.rs),
the consumer worker retry loop (crates/worker/src/consumer.rs), the rate limiter
(crates/api/src/middleware/rate_limit.rs), the retention cutoff
(crates/worker/src/retention.rs) and the enrichment worker
(crates/worker/src/enrichment.rs).

External crates (serde_json, chrono, url, woothee, the Kafka client and the
ClickHouse sink) are modelled as explicit function parameters collected in
environment structures; Rust f64 values that the verified properties do not
depend on are modelled as rationals.
-/

namespace IngestionEngine

/-- JSON value, modelling `serde_json::Value`. Numbers are modelled as integers;
none of the verified properties inspects numeric JSON payloads. -/
inductive Json where
  | null : Json
  | bool (b : Bool) : Json
  | num (n : Int) : Json
  | str (s : String) : Json
  | arr (xs : List Json) : Json
  | obj (fields : List (String × Json)) : Json

/-- Source `Value::as_str`: the string payload of a JSON string, `none` otherwise. -/
def Json.asStr : Json → Option String
  | .str s => some s
  | _ => none

/-- Event type enumeration from core/src/sdk_event.rs (`EventType`). -/
inductive EventType where
  | pageview | pageleave | click | scroll | mouseMove | keydown | keypress | keyup
  | formFocus | formBlur | formSubmit | formAbandon | error | visibilityChange
  | resourceLoad | sessionStart | sessionEnd | performance | custom
  | exitIntent | idleStart | idleEnd | engagementSnapshot
  | triggerRegistered | triggerFired | triggerDismissed | triggerAction | triggerError
deriving DecidableEq, Repr

/-- Source `EventType::as_str`. -/
def EventType.as_str : EventType → String
  | .pageview => "pageview"
  | .pageleave => "pageleave"
  | .click => "click"
  | .scroll => "scroll"
  | .mouseMove => "mouse_move"
  | .keydown => "keydown"
  | .keypress => "keypress"
  | .keyup => "keyup"
  | .formFocus => "form_focus"
  | .formBlur => "form_blur"
  | .formSubmit => "form_submit"
  | .formAbandon => "form_abandon"
  | .error => "error"
  | .visibilityChange => "visibility_change"
  | .resourceLoad => "resource_load"
  | .sessionStart => "session_start"
  | .sessionEnd => "session_end"
  | .performance => "performance"
  | .custom => "custom"
  | .exitIntent => "exit_intent"
  | .idleStart => "idle_start"
  | .idleEnd => "idle_end"
  | .engagementSnapshot => "engagement_snapshot"
  | .triggerRegistered => "trigger_registered"
  | .triggerFired => "trigger_fired"
  | .triggerDismissed => "trigger_dismissed"
  | .triggerAction => "trigger_action"
  | .triggerError => "trigger_error"

/-- Source `DeviceDetails` (core/src/sdk_event.rs). -/
structure DeviceDetails where
  device_type : Option String
  os : Option String

/-- Source `BrowserDetails` (core/src/sdk_event.rs). -/
structure BrowserDetails where
  name : Option String
  version : Option String

/-- Source `DeviceInfo` (core/src/sdk_event.rs). -/
structure DeviceInfo where
  device : Option DeviceDetails
  browser : Option BrowserDetails

/-- Source `LocationInfo` (core/src/sdk_event.rs). -/
structure LocationInfo where
  country : Option String
  region : Option String
  city : Option String

/-- Source `SDKEvent` (core/src/sdk_event.rs). The `extra` flattened bag is an
association list with the uniqueness of `HashMap` keys left implicit. -/
structure SDKEvent where
  id : String
  event_type : EventType
  timestamp : Int
  session_id : String
  url : String
  user_agent : String
  user_id : Option String
  path : Option String
  referrer : Option String
  device_info : Option DeviceInfo
  location : Option LocationInfo
  extra : List (String × Json)

/-- Source `ClickHouseEvent` (core/src/sdk_event.rs). -/
structure ClickHouseEvent where
  event_id : String
  project_id : String
  session_id : String
  user_id : Option String
  event_type : String
  custom_name : Option String
  timestamp : Int
  url : String
  path : String
  referrer : String
  user_agent : String
  device_type : String
  browser : String
  browser_version : String
  os : String
  country : String
  region : Option String
  city : Option String
  data : String
deriving DecidableEq, Repr

/-- Limits from core/src/limits.rs. -/
def MAX_BATCH_SIZE_BYTES : Nat := 1024 * 1024

/-- Source `MAX_BATCH_EVENTS` (core/src/limits.rs). -/
def MAX_BATCH_EVENTS : Nat := 1000

/-- Source `MAX_CUSTOM_PROPERTIES_BYTES` (core/src/limits.rs). -/
def MAX_CUSTOM_PROPERTIES_BYTES : Nat := 16 * 1024

/-- Environment of external crates used by validation and the transform:
`urlPath` models `url::Url::parse(u).map(|p| p.path())` (None when the URL
does not parse); `tsOk` models `chrono::Utc.timestamp_millis_opt(t).single().is_some()`;
`serializeExtras` models `serde_json::to_string` of the extras map;
`extrasCheck` models the serde + validator type-specific shape checks of
`validate_event_data` for trigger, mouse_move and custom events (these
deserialize against f64-bearing structs; `some msg` is the error message). -/
structure Env where
  urlPath : String → Option String
  tsOk : Int → Bool
  serializeExtras : List (String × Json) → String
  extrasCheck : EventType → List (String × Json) → Option String

/-- Source `extract_path` (core/src/sdk_event.rs): parsed URL path, or "/" when the
URL does not parse. -/
def extract_path (env : Env) (url : String) : String :=
  (env.urlPath url).getD "/"

/-- The `validator` derive checks on `SDKEvent` (length bounds). The multi-field
error `Display` text is abbreviated to a fixed message. -/
def validateDerive (e : SDKEvent) : Bool :=
  decide (e.url.length ≤ 2048) && decide (e.user_agent.length ≤ 512)
    && (match e.user_id with | some u => decide (u.length ≤ 128) | none => true)
    && (match e.path with | some p => decide (p.length ≤ 2000) | none => true)
    && (match e.referrer with | some r => decide (r.length ≤ 2048) | none => true)

/-- Source `validate_event_data` (core/src/sdk_event.rs): type-specific payload shape
checks; trigger types, mouse_move and custom delegate to the serde/validator
shape checks, every other type passes. -/
def validate_event_data (env : Env) (e : SDKEvent) : Option String :=
  match e.event_type with
  | .exitIntent | .idleStart | .idleEnd | .engagementSnapshot
  | .triggerRegistered | .triggerFired | .triggerDismissed
  | .triggerAction | .triggerError | .mouseMove | .custom =>
      env.extrasCheck e.event_type e.extra
  | _ => none

/-- Source `validate_sdk_event` (core/src/sdk_event.rs): derive checks, required
non-empty fields, timestamp window `[now - 24h, now + 5s]`, then the
type-specific shape check. `some msg` is a validation failure. -/
def validate_sdk_event (env : Env) (now : Int) (e : SDKEvent) : Option String :=
  if !validateDerive e then some "field length validation failed"
  else if e.id = "" then some "id is required"
  else if e.session_id = "" then some "sessionId is required"
  else if e.url = "" then some "url is required"
  else if e.user_agent = "" then some "userAgent is required"
  else if e.timestamp > now + 5 * 1000 then
    some "timestamp cannot be more than 5s in the future"
  else if e.timestamp < now - 24 * 60 * 60 * 1000 then
    some "timestamp cannot be more than 24h in the past"
  else validate_event_data env e

/-- Source `ClickHouseEvent::from_sdk` (core/src/sdk_event.rs). `serde_json::to_vec`
of the extras is modelled by `env.serializeExtras`; its byte size check uses
UTF-8 byte length like `String::len`. -/
def ClickHouseEvent.from_sdk (env : Env) (e : SDKEvent) (project_id : String) :
    Except String ClickHouseEvent :=
  if !env.tsOk e.timestamp then .error "invalid timestamp"
  else
    let path := e.path.getD (extract_path env e.url)
    let dto := match e.device_info.bind (·.device) with
      | some d => (d.device_type.getD "unknown", d.os.getD "unknown")
      | none => ("unknown", "unknown")
    let bro := match e.device_info.bind (·.browser) with
      | some b => (b.name.getD "unknown", b.version.getD "unknown")
      | none => ("unknown", "unknown")
    let loc := match e.location with
      | some l => (l.country.getD "unknown", l.region, l.city)
      | none => ("unknown", none, none)
    let data := if e.extra.isEmpty then "\x7b\x7d" else env.serializeExtras e.extra
    if data.utf8ByteSize > MAX_CUSTOM_PROPERTIES_BYTES then
      .error "extra data exceeds 16KB limit"
    else
      let custom_name :=
        if e.event_type = .custom then (e.extra.lookup "name").bind Json.asStr
        else none
      .ok {
        event_id := e.id
        project_id := project_id
        session_id := e.session_id
        user_id := e.user_id
        event_type := e.event_type.as_str
        custom_name := custom_name
        timestamp := e.timestamp
        url := e.url
        path := path
        referrer := e.referrer.getD ""
        user_agent := e.user_agent
        device_type := dto.1
        browser := bro.1
        browser_version := bro.2
        os := dto.2
        country := loc.1
        region := loc.2.1
        city := loc.2.2
        data := data }

/-- Source `Display` of `Error::Validation` ("validation error: {0}", core/src/error.rs). -/
def errorDisplay (msg : String) : String := "validation error: " ++ msg

/-- Recursion of `transform_batch` over the enumerated events: failed records
push an indexed error payload, surviving records are transformed. The pushed
strings are the payloads of the wrapping `Error::Validation`. -/
def transformGo (env : Env) (now : Int) (project_id : String) :
    Nat → List SDKEvent → List ClickHouseEvent × List String
  | _, [] => ([], [])
  | i, e :: rest =>
    let r := transformGo env now project_id (i + 1) rest
    match validate_sdk_event env now e with
    | some msg =>
      let em := errorDisplay msg
      (r.1, s!"event[{i}]: {em}" :: r.2)
    | none =>
      match ClickHouseEvent.from_sdk env e project_id with
      | .ok ch => (ch :: r.1, r.2)
      | .error msg =>
        let em := errorDisplay msg
        (r.1, s!"event[{i}]: {em}" :: r.2)

/-- Source `transform_batch` (core/src/sdk_event.rs): validate then transform each
record, collecting survivors and per-record errors. (In the source it returns
`Result` but its body is always `Ok`.) -/
def transform_batch (env : Env) (now : Int) (events : List SDKEvent)
    (project_id : String) : List ClickHouseEvent × List String :=
  transformGo env now project_id 0 events

/-- Source `IngestResponse` (api/src/response.rs); `timestamp` is the server clock in
milliseconds. -/
structure IngestResponse where
  success : Bool
  received : Nat
  timestamp : Int
  errors : Option (List String)
deriving DecidableEq, Repr

/-- Source `IngestResponse::success`. -/
def IngestResponse.ok (now : Int) (received : Nat) : IngestResponse :=
  ⟨true, received, now, none⟩

/-- Source `IngestResponse::partial`. -/
def IngestResponse.okWithErrors (now : Int) (received : Nat) (errors : List String) :
    IngestResponse :=
  ⟨true, received, now, if errors.isEmpty then none else some errors⟩

/-- Source `ApiError` together with its serialized `ErrorResponse` (api/src/response.rs). -/
structure ApiErr where
  status : Nat
  error : String
  code : String
  details : Option (List String)
deriving DecidableEq, Repr

/-- Source `ApiError::validation` — 400, "Validation failed", given code, details. -/
def ApiError.validation (code : String) (errors : List String) : ApiErr :=
  ⟨400, "Validation failed", code, some errors⟩

/-- Source `ApiError::bad_request` — 400 with code VALID_001. -/
def ApiError.bad_request (msg : String) : ApiErr :=
  ⟨400, msg, "VALID_001", none⟩

/-- Source `ApiError::internal` — 500 with code DB_001. -/
def ApiError.internal (msg : String) : ApiErr :=
  ⟨500, msg, "DB_001", none⟩

/-- Outcome of the ingest handler: a JSON 200 body or an `ApiError` response. -/
inductive HandlerResult where
  | ok (r : IngestResponse) : HandlerResult
  | err (e : ApiErr) : HandlerResult
deriving DecidableEq, Repr

/-- HTTP status of a handler outcome. -/
def HandlerResult.statusCode : HandlerResult → Nat
  | .ok _ => 200
  | .err e => e.status

/-- Error code of a handler outcome, when it is an error response. -/
def HandlerResult.errCode : HandlerResult → Option String
  | .ok _ => none
  | .err e => some e.code

/-- One Kafka message as built by the producer (rskafka `Record`); the key and
value byte vectors are modelled as the strings they encode, headers are unused. -/
structure KafkaRecord where
  key : Option String
  value : Option String
deriving DecidableEq, Repr

/-- Source `SendResult` (redpanda/src/producer.rs). -/
structure SendResult where
  events_sent : Nat
  errors : List String
deriving DecidableEq, Repr

/-- Environment of the external collaborators of the producer: `clientOk` models
`get_client` succeeding, `produceOk` models the broker accepting the produce
call, `serializeEvent` models `serde_json::to_vec` of a `ClickHouseEvent`
(which cannot fail on this struct, so the per-event serialization error branch
is not reachable). -/
structure ProducerEnv where
  clientOk : Bool
  produceOk : Bool
  serializeEvent : ClickHouseEvent → String

/-- The records built by `Producer::send_clickhouse_events`: one message per
event with key `"{project_id}:{session_id}"`. -/
def recordsOf (penv : ProducerEnv) (events : List ClickHouseEvent) :
    List KafkaRecord :=
  events.map fun e =>
    let pid := e.project_id
    let sid := e.session_id
    { key := some s!"{pid}:{sid}"
      value := some (penv.serializeEvent e) }

/-- Source `Producer::send_clickhouse_events` (redpanda/src/producer.rs). Returns the
call result together with the list of records durably appended to the log
(empty when no produce call succeeds). A broker rejection of the produce call
is returned as `Ok` with an error string collected in `SendResult.errors`;
only a `get_client` failure is returned as `Err`. -/
def send_clickhouse_events (penv : ProducerEnv) (events : List ClickHouseEvent) :
    Except String SendResult × List KafkaRecord :=
  if events.isEmpty then (.ok ⟨0, []⟩, [])
  else if !penv.clientOk then (.error "Failed to get partition client", [])
  else
    let records := recordsOf penv events
    if penv.produceOk then (.ok ⟨records.length, []⟩, records)
    else (.ok ⟨0, ["Failed to produce: broker rejected the request"]⟩, [])

/-- Source `ingest_handler` (api/src/routes/ingest.rs) after authentication: body-size
guard, parse (whose outcome is the `parsed` argument, modelling
`SDKPayload::parse`), batch-size guard, transform, publish, response shaping.
Returns the HTTP outcome together with the records appended to the log. -/
def ingest_handler (env : Env) (penv : ProducerEnv) (now : Int)
    (project_id : String) (bodyLen : Nat)
    (parsed : Except String (List SDKEvent)) : HandlerResult × List KafkaRecord :=
  if bodyLen > MAX_BATCH_SIZE_BYTES then
    let kb := bodyLen / 1024
    let limitKb := MAX_BATCH_SIZE_BYTES / 1024
    (.err (ApiError.validation "VALID_002"
        [s!"Payload size {kb}KB exceeds {limitKb}KB limit"]), [])
  else
    match parsed with
    | .error e => (.err (ApiError.bad_request (errorDisplay e)), [])
    | .ok events =>
      let total := events.length
      if total > MAX_BATCH_EVENTS then
        (.err (ApiError.validation "VALID_002"
            [s!"Batch has {total} events, exceeds {MAX_BATCH_EVENTS} limit"]), [])
      else
        let tr := transform_batch env now events project_id
        let accepted := tr.1.length
        let response :=
          if tr.2.length > 0 then
            HandlerResult.ok (IngestResponse.okWithErrors now accepted (tr.2.map errorDisplay))
          else HandlerResult.ok (IngestResponse.ok now accepted)
        if tr.1.isEmpty then (response, [])
        else
          match send_clickhouse_events penv tr.1 with
          | (.error _, _) => (.err (ApiError.internal "Failed to store events"), [])
          | (.ok _, published) => (response, published)

/-! ## Enrichment worker (worker/src/enrichment.rs) -/

/-- Source `woothee::parser::ParseResult` fields used by the enrichment worker. -/
structure WootheeResult where
  name : String
  version : String
  os : String
  category : String

/-- The woothee category to storage device-type mapping inside
`EnrichmentWorker::enrich`. -/
def mapCategory (category : String) : String :=
  if category = "pc" then "desktop"
  else if category = "smartphone" then "mobile"
  else if category = "mobilephone" then "mobile"
  else if category = "crawler" then "bot"
  else if category = "appliance" then "other"
  else "unknown"

/-- Source `EnrichmentWorker::enrich` (worker/src/enrichment.rs); `uaParse` models
`woothee::parser::Parser::parse`. -/
def enrich (uaParse : String → Option WootheeResult) (e : ClickHouseEvent) :
    ClickHouseEvent :=
  if e.user_agent = "" then e
  else
    match uaParse e.user_agent with
    | none => e
    | some r =>
      let e1 := if r.name ≠ "" ∧ r.name ≠ "UNKNOWN" then { e with browser := r.name } else e
      let e2 := if r.version ≠ "" ∧ r.version ≠ "UNKNOWN" then
          { e1 with browser_version := r.version } else e1
      let e3 := if r.os ≠ "" ∧ r.os ≠ "UNKNOWN" then { e2 with os := r.os } else e2
      if e3.device_type = "" ∨ e3.device_type = "unknown" then
        { e3 with device_type := mapCategory r.category }
      else e3

/-- Source `EnrichmentWorker::enrich_batch`. -/
def enrich_batch (uaParse : String → Option WootheeResult)
    (events : List ClickHouseEvent) : List ClickHouseEvent :=
  events.map (enrich uaParse)

/-! ## Consumer worker retry loop (worker/src/consumer.rs) -/

/-- Source `ConsumerWorkerConfig`. -/
structure ConsumerWorkerConfig where
  max_retries : Nat
  retry_backoff : Nat
  skip_on_failure : Bool

/-- Source `ConsumerWorkerConfig::default()`: 3 retries, 100 ms backoff, skip on. -/
def ConsumerWorkerConfig.deflt : ConsumerWorkerConfig := ⟨3, 100, true⟩

/-- Trace of one `insert_with_retry` run: final result, the sleep durations
performed before retries (in ms), and the number of insert attempts made. -/
structure RetryTrace where
  result : Except String Nat
  sleeps : List Nat
  attempts : Nat
deriving Repr

/-- The `for attempt in 0..=max_retries` loop of `insert_with_retry`: sleep
`retry_backoff * attempt` when `attempt > 0`, then try the insert; on failure
retry while `attempt < max_retries`. `ins` models the outcome of
`route_and_insert` (the external ClickHouse sink) at each attempt index.
The loop always terminates after at most `max_retries + 1 - attempt`
iterations, made explicit by the structural `fuel` argument; the loop is
entered with `fuel = max_retries + 1`, so the `fuel = 0` base case (which
models the `last_error.unwrap_or_else` fallback) is unreachable. -/
def insertLoop (ins : Nat → Except String Nat) (backoff maxRetries : Nat) :
    Nat → Nat → RetryTrace
  | 0, _ => ⟨.error "Insert failed with unknown error", [], 0⟩
  | fuel + 1, attempt =>
    let pre : List Nat := if 0 < attempt then [backoff * attempt] else []
    match ins attempt with
    | .ok n => ⟨.ok n, pre, 1⟩
    | .error e =>
      if attempt < maxRetries then
        let r := insertLoop ins backoff maxRetries fuel (attempt + 1)
        ⟨r.result, pre ++ r.sleeps, r.attempts + 1⟩
      else ⟨.error e, pre, 1⟩

/-- Source `ConsumerWorker::insert_with_retry`: enrich, then attempt the routed
insert up to `max_retries + 1` times (`for attempt in 0..=max_retries`),
with linear backoff before each retry. `ins` receives the enriched events. -/
def insert_with_retry (cfg : ConsumerWorkerConfig)
    (uaParse : String → Option WootheeResult)
    (ins : List ClickHouseEvent → Nat → Except String Nat)
    (events : List ClickHouseEvent) : RetryTrace :=
  insertLoop (ins (enrich_batch uaParse events)) cfg.retry_backoff cfg.max_retries
    (cfg.max_retries + 1) 0

/-- Source `ConsumerWorker::process_batch`: fetch (already given), insert with
retries, commit. Returns the processing result and the list of offsets
committed to the consumer. -/
def process_batch (cfg : ConsumerWorkerConfig)
    (uaParse : String → Option WootheeResult)
    (ins : List ClickHouseEvent → Nat → Except String Nat)
    (fetched : List ClickHouseEvent × Option Nat) :
    Except String Nat × List Nat :=
  let events := fetched.1
  let offset := fetched.2
  if events.isEmpty then (.ok 0, [])
  else
    let r := insert_with_retry cfg uaParse ins events
    match r.result with
    | .ok inserted => (.ok inserted, offset.toList)
    | .error e =>
      if cfg.skip_on_failure then (.ok 0, offset.toList)
      else (.error e, [])

/-! ## Rate limiter (api/src/middleware/rate_limit.rs) -/

/-- Source `MAX_BUCKETS`. -/
def MAX_BUCKETS : Nat := 10000

/-- Source `DEFAULT_MAX_AGE` in seconds. -/
def DEFAULT_MAX_AGE : Nat := 3600

/-- Source `RateLimitConfig`. -/
structure RateLimitConfig where
  rate : Nat
  burst : Nat

/-- Source `TokenBucket`; the f64 token count is modelled as a rational, the
`Instant` as seconds on a monotonic clock. -/
structure TokenBucket where
  tokens : ℚ
  last_update : Nat

/-- Source `TokenBucket::new`. -/
def TokenBucket.mk0 (burst : Nat) (now : Nat) : TokenBucket :=
  ⟨(burst : ℚ), now⟩

/-- Source `TokenBucket::try_acquire`: replenish by `elapsed * rate` clamped to
`burst`, then consume one token if at least one is available. -/
def TokenBucket.try_acquire (b : TokenBucket) (rate burst : Nat) (now : Nat) :
    Bool × TokenBucket :=
  let elapsed : ℚ := ((now - b.last_update : Nat) : ℚ)
  let tokens := min (b.tokens + elapsed * rate) (burst : ℚ)
  if 1 ≤ tokens then (true, ⟨tokens - 1, now⟩) else (false, ⟨tokens, now⟩)

/-- The bucket table, modelling `HashMap<String, TokenBucket>` as an
association list with pairwise-distinct keys. -/
abbrev Buckets := List (String × TokenBucket)

/-- Source `HashMap::get` / `contains_key` on the bucket table. -/
def findBucket : Buckets → String → Option TokenBucket
  | [], _ => none
  | (k', b) :: rest, k => if k' = k then some b else findBucket rest k

/-- Source `HashMap` entry update-or-insert on the bucket table. -/
def setBucket : Buckets → String → TokenBucket → Buckets
  | [], k, b => [(k, b)]
  | (k', b') :: rest, k, b =>
    if k' = k then (k, b) :: rest else (k', b') :: setBucket rest k b

/-- The capacity-pressure eviction inside `RateLimiter::check`: drop buckets
older than `DEFAULT_MAX_AGE`; if still at capacity, sort by `last_update` and
remove the oldest `MAX_BUCKETS / 10` keys. -/
def evictForCapacity (now : Nat) (st : Buckets) : Buckets :=
  let st1 := st.filter fun kv => decide (now - kv.2.last_update < DEFAULT_MAX_AGE)
  if MAX_BUCKETS ≤ st1.length then
    let toEvict := MAX_BUCKETS / 10
    let sorted := st1.mergeSort fun a b => a.2.last_update ≤ b.2.last_update
    let evicted := (sorted.take toEvict).map Prod.fst
    st1.filter fun kv => !(evicted.contains kv.1)
  else st1

/-- Source `RateLimiter::check`: evict under capacity pressure for a new key, then
get-or-insert the bucket of the key and try to acquire a token. -/
def RateLimiter.check (cfg : RateLimitConfig) (st : Buckets) (key : String)
    (now : Nat) : Bool × Buckets :=
  let st' :=
    if MAX_BUCKETS ≤ st.length ∧ (findBucket st key).isNone then
      evictForCapacity now st
    else st
  let b := (findBucket st' key).getD (TokenBucket.mk0 cfg.burst now)
  let r := b.try_acquire cfg.rate cfg.burst now
  (r.1, setBucket st' key r.2)

/-- A sequence of `RateLimiter::check` calls (key and call instant each),
starting from a given table; `RateLimiter::new` starts from the empty table. -/
def checkSeq (cfg : RateLimitConfig) : Buckets → List (String × Nat) → Buckets
  | st, [] => st
  | st, (key, now) :: calls => checkSeq cfg (RateLimiter.check cfg st key now).2 calls

/-! ## Retention cutoff (worker/src/retention.rs) -/

/-- Zero-padding of `{:02}` for the month component. -/
def pad2 (m : Int) : String :=
  if 0 ≤ m ∧ m < 10 then "0" ++ toString m else toString m

/-- Source `calculate_cutoff_partition` (worker/src/retention.rs): Rust `i32`
truncating division and remainder are `Int.tdiv` / `Int.tmod`. -/
def calculate_cutoff_partition (year : Int) (month : Nat)
    (months_to_keep : Nat) : String :=
  let total_months : Int := year * 12 + month - months_to_keep
  let target_year : Int := Int.tdiv (total_months - 1) 12
  let target_month : Int := Int.tmod (total_months - 1) 12 + 1
  toString target_year ++ pad2 target_month

/-- Modelled from the spec: the `YYYYMM` identifier of the calendar month
`k` months before year/month `(year, month)`, via the absolute month index
with floor semantics, formatted with a two-digit month. -/
def spec_cutoff_month_before (year : Int) (month k : Nat) : String :=
  let idx : Int := year * 12 + ((month : Int) - 1) - k
  toString (idx / 12) ++ pad2 (idx % 12 + 1)

/-- One row of `system.parts` grouped per partition, as selected by
`RetentionWorker::get_old_partitions`. -/
structure PartRow where
  partition_id : String
  active : Bool
  rows : Nat
  bytes_on_disk : Nat
deriving DecidableEq, Repr

/-- The SQL string comparison of ClickHouse (bytewise lexicographic, which on
ASCII digit strings agrees with the character-list order defining `String.lt`). -/
def strLt (a b : String) : Bool := decide (a.data < b.data)

/-- Source `RetentionWorker::get_old_partitions`: the SQL filter
`active = 1 AND partition_id < cutoff` over `system.parts`. -/
def get_old_partitions (parts : List PartRow) (cutoff : String) : List PartRow :=
  parts.filter fun p => p.active && strLt p.partition_id cutoff

/-! ## Concrete fixtures used by witnesses and counterexamples -/

/-- Benign external environment: URLs never parse, timestamps convert, the
extras bag serializes to the empty JSON object, shape checks pass. -/
def envFix : Env where
  urlPath := fun _ => none
  tsOk := fun _ => true
  serializeExtras := fun _ => "\x7b\x7d"
  extrasCheck := fun _ _ => none

/-- Environment whose URL parser recognises one URL, with path "/other"
(as `url::Url::parse` does on that input). -/
def envPathFix : Env where
  urlPath := fun u => if u = "https://example.com/other" then some "/other" else none
  tsOk := fun _ => true
  serializeExtras := fun _ => "\x7b\x7d"
  extrasCheck := fun _ _ => none

/-- Producer environment: client connects and the broker accepts. -/
def penvOk : ProducerEnv where
  clientOk := true
  produceOk := true
  serializeEvent := fun _ => "\x7b\x7d"

/-- Producer environment: client connects but the broker rejects the produce
call. -/
def penvReject : ProducerEnv where
  clientOk := true
  produceOk := false
  serializeEvent := fun _ => "\x7b\x7d"

/-- An SDK record whose `id` is empty, hence failing per-record validation. -/
def evBlankId : SDKEvent where
  id := ""
  event_type := .pageview
  timestamp := 0
  session_id := "s1"
  url := "https://example.com/"
  user_agent := "UA"
  user_id := none
  path := none
  referrer := none
  device_info := none
  location := none
  extra := []

/-- A valid pageview SDK record. -/
def evValid : SDKEvent :=
  { evBlankId with id := "evt-1" }

/-- A valid custom SDK record whose extras carry a string `name`. -/
def evCustom : SDKEvent :=
  { evBlankId with
      id := "evt-2"
      event_type := .custom
      extra := [("name", .str "purchase"), ("properties", .obj [])] }

/-- A pageview SDK record with an explicit `path` overriding the path of its URL. -/
def evPathOverride : SDKEvent :=
  { evBlankId with
      id := "evt-3"
      url := "https://example.com/other"
      path := some "/custom" }

/-- The storage record `from_sdk` produces from `evCustom` under `envFix`. -/
def chCustom : ClickHouseEvent where
  event_id := "evt-2"
  project_id := "proj"
  session_id := "s1"
  user_id := none
  event_type := "custom"
  custom_name := some "purchase"
  timestamp := 0
  url := "https://example.com/"
  path := "/"
  referrer := ""
  user_agent := "UA"
  device_type := "unknown"
  browser := "unknown"
  browser_version := "unknown"
  os := "unknown"
  country := "unknown"
  region := none
  city := none
  data := "\x7b\x7d"

/-- The storage record `from_sdk` produces from `evPathOverride` under
`envPathFix`. -/
def chPathOverride : ClickHouseEvent :=
  { chCustom with
      event_id := "evt-3"
      event_type := "pageview"
      custom_name := none
      url := "https://example.com/other"
      path := "/custom" }

/-- A storage record with project identifier "p" and session identifier "s". -/
def chPS : ClickHouseEvent :=
  { chCustom with
      event_id := "evt-4"
      event_type := "pageview"
      custom_name := none
      project_id := "p"
      session_id := "s" }

/-- A storage record with an empty user agent. -/
def chEmptyUA : ClickHouseEvent :=
  { chPS with event_id := "evt-5", user_agent := "" }

/-- The partition table of the retention scenario given in the spec. -/
def demoParts : List PartRow :=
  [⟨"202309", true, 5, 70⟩, ⟨"202310", true, 6, 80⟩,
   ⟨"202311", true, 7, 90⟩, ⟨"202312", true, 8, 100⟩]

/-! ## Theorems -/

/-- C8: for every SDK record transformed to a storage record, `custom_name`
is the string value of the `name` field of the extras when the event type is
custom, and null for every non-custom event type. -/
theorem from_sdk_custom_name (env : Env) (e : SDKEvent) (p : String)
    (ch : ClickHouseEvent) (h : ClickHouseEvent.from_sdk env e p = .ok ch) :
    (e.event_type = .custom →
      ch.custom_name = (e.extra.lookup "name").bind Json.asStr) ∧
    (e.event_type ≠ .custom → ch.custom_name = none) := by
  unfold ClickHouseEvent.from_sdk at h
  split at h
  · exact absurd h (by simp)
  · dsimp only at h
    split at h <;> split at h
    all_goals first
      | (rw [Except.ok.injEq] at h; subst h;
         exact ⟨fun hc => by simp [hc], fun hc => by simp [hc]⟩)
      | exact absurd h (by simp)

/-- Witness for C8 at a concrete custom event. -/
theorem from_sdk_custom_name_witness :
    ClickHouseEvent.from_sdk envFix evCustom "proj" = .ok chCustom ∧
    chCustom.custom_name = some "purchase" := by
  refine ⟨by rfl, ?_⟩
  have h := (from_sdk_custom_name envFix evCustom "proj" chCustom (by rfl)).1 (by rfl)
  exact h.trans (by rfl)

/-- C9 (amended): the storage `path` is the explicit SDK path when
one is given; only when the SDK path is absent is it the parsed path of the
URL, or "/" when the URL does not parse. -/
theorem from_sdk_path_rule (env : Env) (e : SDKEvent) (p : String)
    (ch : ClickHouseEvent) (h : ClickHouseEvent.from_sdk env e p = .ok ch) :
    (e.path = none → ch.path = (env.urlPath e.url).getD "/") ∧
    (∀ q, e.path = some q → ch.path = q) := by
  unfold ClickHouseEvent.from_sdk at h
  split at h
  · exact absurd h (by simp)
  · dsimp only at h
    split at h <;> split at h
    all_goals first
      | (rw [Except.ok.injEq] at h; subst h;
         exact ⟨fun hp => by simp [hp, extract_path],
                fun q hp => by simp [hp]⟩)
      | exact absurd h (by simp)

/-- C9 counterexample: a record whose URL parses with path "/other" but whose
explicit SDK path is "/custom" yields storage path "/custom", which is neither
the parsed path of the URL nor "/". -/
theorem from_sdk_path_claim_counterexample :
    ClickHouseEvent.from_sdk envPathFix evPathOverride "proj" = .ok chPathOverride ∧
    envPathFix.urlPath evPathOverride.url = some "/other" ∧
    chPathOverride.path = "/custom" ∧
    chPathOverride.path ≠ "/other" ∧ chPathOverride.path ≠ "/" :=
  ⟨rfl, rfl, rfl, by decide, by decide⟩

/-- Witness for C9 (amended) at a concrete record with an explicit path. -/
theorem from_sdk_path_rule_witness : chPathOverride.path = "/custom" :=
  (from_sdk_path_rule envPathFix evPathOverride "proj" chPathOverride rfl).2
    "/custom" rfl

/-- C10: `EnrichmentWorker::enrich` modifies at most the browser,
browser_version, os and device_type fields, and leaves a record with an
empty user agent entirely unchanged. -/
theorem enrich_frame (uaParse : String → Option WootheeResult)
    (e : ClickHouseEvent) :
    enrich uaParse e = { e with
      browser := (enrich uaParse e).browser
      browser_version := (enrich uaParse e).browser_version
      os := (enrich uaParse e).os
      device_type := (enrich uaParse e).device_type } ∧
    (e.user_agent = "" → enrich uaParse e = e) := by
  obtain ⟨f1, f2, f3, f4, f5, f6, f7, f8, f9, f10, f11,
    f12, f13, f14, f15, f16, f17, f18, f19⟩ := e
  constructor
  · unfold enrich
    dsimp only
    split
    · rfl
    · split
      · rfl
      · repeat' split
        all_goals rfl
  · intro hua
    dsimp only at hua
    subst hua
    unfold enrich
    simp

/-- Witness for C10 at a concrete record with an empty user agent. -/
theorem enrich_frame_witness : enrich (fun _ => none) chEmptyUA = chEmptyUA :=
  (enrich_frame (fun _ => none) chEmptyUA).2 rfl

/-- Helper: the key interpolation of the producer is plain concatenation. -/
theorem interp_colon (a b : String) : s!"{a}:{b}" = a ++ ":" ++ b := by
  show (((("" : String) ++ a) ++ ":") ++ b) ++ "" = a ++ ":" ++ b
  simp

/-- C2 (amended): a body over 1 MiB is rejected before parsing with HTTP 400
and error code VALID_002 (the code of `ValidationErrorCode::BatchTooLarge`),
independently of the parse outcome, and no records are published. -/
theorem ingest_oversize_body (env : Env) (penv : ProducerEnv) (now : Int)
    (project_id : String) (bodyLen : Nat)
    (parsed : Except String (List SDKEvent))
    (h : bodyLen > MAX_BATCH_SIZE_BYTES) :
    (ingest_handler env penv now project_id bodyLen parsed).1.statusCode = 400 ∧
    (ingest_handler env penv now project_id bodyLen parsed).1.errCode =
      some "VALID_002" ∧
    (ingest_handler env penv now project_id bodyLen parsed).2 = [] := by
  unfold ingest_handler
  rw [if_pos h]
  exact ⟨rfl, rfl, rfl⟩

/-- Witness for C2 (amended) at a concrete oversize body length. -/
theorem ingest_oversize_body_witness :
    (ingest_handler envFix penvOk 0 "proj" 1048577 (.ok [])).1.errCode =
      some "VALID_002" :=
  (ingest_oversize_body envFix penvOk 0 "proj" 1048577 (.ok []) (by decide)).2.1

/-- C2 counterexample: a 1 MiB + 1 byte body is rejected with code VALID_002,
not VALID_001 as the claim states. -/
theorem ingest_oversize_body_claim_counterexample :
    (ingest_handler envFix penvOk 0 "proj" 1048577 (.ok [evValid])).1.statusCode
        = 400 ∧
    (ingest_handler envFix penvOk 0 "proj" 1048577 (.ok [evValid])).1.errCode =
      some "VALID_002" ∧
    (ingest_handler envFix penvOk 0 "proj" 1048577 (.ok [evValid])).1.errCode ≠
      some "VALID_001" :=
  ⟨rfl, rfl, by decide⟩

/-- C1 (amended): a parsed batch within the size limits in which every record
fails per-record validation (zero survivors) is answered with HTTP 200,
`success = true`, `received = 0` and the full list of per-record failure
messages in `errors`; nothing is published. -/
theorem ingest_zero_survivors (env : Env) (penv : ProducerEnv) (now : Int)
    (project_id : String) (bodyLen : Nat) (events : List SDKEvent)
    (errs : List String)
    (hb : bodyLen ≤ MAX_BATCH_SIZE_BYTES) (hn : events.length ≤ MAX_BATCH_EVENTS)
    (ht : transform_batch env now events project_id = ([], errs))
    (hne : errs ≠ []) :
    ingest_handler env penv now project_id bodyLen (.ok events) =
      (.ok (IngestResponse.okWithErrors now 0 (errs.map errorDisplay)), []) := by
  unfold ingest_handler
  rw [if_neg (by omega : ¬bodyLen > MAX_BATCH_SIZE_BYTES)]
  dsimp only
  rw [if_neg (by omega : ¬events.length > MAX_BATCH_EVENTS), ht]
  have hpos : errs.length > 0 := List.length_pos.mpr hne
  simp [hpos]

/-- Witness for C1 (amended): one record with an empty id. -/
theorem ingest_zero_survivors_witness :
    ingest_handler envFix penvOk 0 "proj" 10 (.ok [evBlankId]) =
      (.ok (IngestResponse.okWithErrors 0 0
        (["event[0]: validation error: id is required"].map errorDisplay)), []) :=
  ingest_zero_survivors envFix penvOk 0 "proj" 10 [evBlankId]
    ["event[0]: validation error: id is required"]
    (by decide) (by decide) (by rfl) (List.cons_ne_nil _ _)

/-- C1 counterexample: a parsed one-record batch whose only record fails
validation is answered with HTTP 200, not 400. -/
theorem ingest_zero_survivors_claim_counterexample :
    (validate_sdk_event envFix 0 evBlankId).isSome = true ∧
    (ingest_handler envFix penvOk 0 "proj" 10 (.ok [evBlankId])).1.statusCode
        = 200 ∧
    (ingest_handler envFix penvOk 0 "proj" 10 (.ok [evBlankId])).1.statusCode
        ≠ 400 :=
  ⟨rfl, rfl, by decide⟩

/-- C4: evaluating the pipeline at the failing input. The broker rejects the
produce call of a valid one-record batch: `send_clickhouse_events` returns
`Ok` with the failure only recorded in `SendResult.errors`, and the ingest
handler answers 200 without the DB_001 error that the spec, the in-repo mock
producer and the e2e test all require. -/
theorem producer_reject_still_200 :
    (send_clickhouse_events penvReject [chPS]).1 =
      .ok ⟨0, ["Failed to produce: broker rejected the request"]⟩ ∧
    (ingest_handler envFix penvReject 0 "proj" 10 (.ok [evValid])).1.statusCode
        = 200 ∧
    (ingest_handler envFix penvReject 0 "proj" 10 (.ok [evValid])).1.errCode ≠
      some "DB_001" :=
  ⟨rfl, rfl, by decide⟩

/-- C3 (amended): every record built by `send_clickhouse_events` carries the
message key `project_id ++ ":" ++ session_id`, and the published records are
exactly those (or nothing, when the client or broker fails or the batch is
empty). -/
theorem producer_record_keys (penv : ProducerEnv)
    (events : List ClickHouseEvent) :
    (recordsOf penv events).map (·.key) =
      events.map (fun e => some (e.project_id ++ ":" ++ e.session_id)) ∧
    ((send_clickhouse_events penv events).2 = recordsOf penv events ∨
      (send_clickhouse_events penv events).2 = []) := by
  constructor
  · simp only [recordsOf, List.map_map]
    exact List.map_congr_left fun e _ => congrArg some (interp_colon _ _)
  · unfold send_clickhouse_events
    split
    · exact Or.inr rfl
    · split
      · exact Or.inr rfl
      · split
        · exact Or.inl rfl
        · exact Or.inr rfl

/-- C3 counterexample: a record with project identifier "p" and session
identifier "s" is published with key "p:s", not the session identifier "s". -/
theorem producer_record_keys_claim_counterexample :
    (send_clickhouse_events penvOk [chPS]).2.map (·.key) = [some "p:s"] ∧
    chPS.session_id = "s" ∧ some "p:s" ≠ (some "s" : Option String) :=
  ⟨rfl, rfl, by decide⟩

/-- Helper: the retry loop makes at most `fuel` attempts. -/
theorem insertLoop_attempts_le (ins : Nat → Except String Nat) (b mr : Nat) :
    ∀ fuel a, (insertLoop ins b mr fuel a).attempts ≤ fuel := by
  intro fuel
  induction fuel with
  | zero => intro a; simp [insertLoop]
  | succ n ih =>
    intro a
    rw [insertLoop]
    cases h : ins a with
    | ok k => exact Nat.succ_le_succ (Nat.zero_le n)
    | error e =>
      dsimp only
      split
      · exact Nat.succ_le_succ (ih (a + 1))
      · exact Nat.succ_le_succ (Nat.zero_le n)

/-- Helper: entered at a positive attempt index, the retry loop sleeps
`backoff * k` before the attempt with index `k`, for each attempt made. -/
theorem insertLoop_sleeps (ins : Nat → Except String Nat) (b mr : Nat) :
    ∀ fuel a, 1 ≤ a →
      (insertLoop ins b mr fuel a).sleeps =
        (List.range' a (insertLoop ins b mr fuel a).attempts).map
          (fun k => b * k) := by
  intro fuel
  induction fuel with
  | zero => intro a ha; simp [insertLoop]
  | succ n ih =>
    intro a ha
    have ha0 : 0 < a := ha
    rw [insertLoop]
    cases h : ins a with
    | ok k => simp [List.range'_succ, ha0]
    | error e =>
      dsimp only
      split
      · have hr := ih (a + 1) (by omega)
        simp [List.range'_succ, ha0, hr]
      · simp [List.range'_succ, ha0]

/-- C5 (amended): the consumer worker makes at most `max_retries + 1` insert
attempts (the initial attempt plus up to `max_retries` retries), sleeping
`retry_backoff * k` before the retry with index `k`; when all attempts fail
and `skip_on_failure` is set, the offset is committed anyway and the batch is
abandoned with result `Ok 0`. -/
theorem consumer_retry_and_skip (cfg : ConsumerWorkerConfig)
    (uaParse : String → Option WootheeResult)
    (ins : List ClickHouseEvent → Nat → Except String Nat)
    (events : List ClickHouseEvent) :
    (insert_with_retry cfg uaParse ins events).attempts ≤ cfg.max_retries + 1 ∧
    (insert_with_retry cfg uaParse ins events).sleeps =
      (List.range' 1 ((insert_with_retry cfg uaParse ins events).attempts - 1)).map
        (fun k => cfg.retry_backoff * k) ∧
    (∀ e offv, events ≠ [] →
      (insert_with_retry cfg uaParse ins events).result = .error e →
      cfg.skip_on_failure = true →
      process_batch cfg uaParse ins (events, some offv) = (.ok 0, [offv])) := by
  refine ⟨insertLoop_attempts_le _ _ _ _ 0, ?_, ?_⟩
  · unfold insert_with_retry
    rw [insertLoop]
    cases h : ins (enrich_batch uaParse events) 0 with
    | ok k => simp
    | error e =>
      dsimp only
      split
      · have hr := insertLoop_sleeps (ins (enrich_batch uaParse events))
          cfg.retry_backoff cfg.max_retries cfg.max_retries 1 (by omega)
        simp [hr]
      · simp
  · intro e offv hne hres hskip
    unfold process_batch
    dsimp only
    rw [if_neg (by simp [hne])]
    rw [hres, hskip]
    simp

/-- Witness for C5 (amended): a poisoned batch under the default
configuration is abandoned and its offset committed. -/
theorem consumer_retry_and_skip_witness :
    process_batch .deflt (fun _ => none) (fun _ _ => .error "insert failed")
      ([chPS], some 7) = (.ok 0, [7]) :=
  (consumer_retry_and_skip .deflt (fun _ => none)
    (fun _ _ => .error "insert failed") [chPS]).2.2 "insert failed" 7
    (List.cons_ne_nil _ _) (by rfl) rfl

/-- C5 counterexample: with the default configuration (`max_retries = 3`) and
an always-failing sink, the worker makes 4 insert attempts, not at most 3. -/
theorem consumer_retry_claim_counterexample :
    ConsumerWorkerConfig.deflt.max_retries = 3 ∧
    (insert_with_retry .deflt (fun _ => none)
      (fun _ _ => .error "insert failed") [chPS]).attempts = 4 ∧
    ¬ (insert_with_retry .deflt (fun _ => none)
      (fun _ _ => .error "insert failed") [chPS]).attempts ≤ 3 :=
  ⟨rfl, rfl, by decide⟩

/-- C7: `calculate_cutoff_partition` is the `YYYYMM` identifier of the
calendar month `months_to_keep` months before the current month (for any
current month of the common era at least `months_to_keep` months in), and
retention selects exactly the active partitions whose identifier sorts
strictly below that cutoff. -/
theorem retention_cutoff (year : Int) (month k : Nat) (_hm1 : 1 ≤ month)
    (_hm2 : month ≤ 12) (hk : (k : Int) ≤ year * 12 + month - 1) :
    calculate_cutoff_partition year month k =
      spec_cutoff_month_before year month k ∧
    ∀ (parts : List PartRow) (p : PartRow),
      p ∈ get_old_partitions parts (calculate_cutoff_partition year month k) ↔
        p ∈ parts ∧ p.active = true ∧
          p.partition_id < calculate_cutoff_partition year month k := by
  constructor
  · unfold calculate_cutoff_partition spec_cutoff_month_before
    dsimp only
    have hx : year * 12 + (month : Int) - k - 1 =
        year * 12 + ((month : Int) - 1) - k := by ring
    rw [hx]
    have h0 : (0 : Int) ≤ year * 12 + ((month : Int) - 1) - k := by omega
    rw [Int.tdiv_eq_ediv h0 (by norm_num), Int.tmod_eq_emod h0 (by norm_num)]
  · intro parts p
    unfold get_old_partitions
    simp [List.mem_filter, and_assoc, strLt, String.lt_iff_toList_lt,
      String.toList]

/-- Witness for C7: the scenario given in the spec. For `now = 2024-01` and
`retention_months = 3` the cutoff is "202310", and of the partitions
202309..202312 exactly 202309 is selected for dropping. -/
theorem retention_cutoff_witness :
    calculate_cutoff_partition 2024 1 3 = "202310" ∧
    get_old_partitions demoParts "202310" = [⟨"202309", true, 5, 70⟩] := by
  refine ⟨?_, by rfl⟩
  exact ((retention_cutoff 2024 1 3 (by decide) (by decide) (by decide)).1).trans
    (by rfl)

/-- Helper: the bucket lookup misses exactly when the key is absent. -/
theorem findBucket_eq_none_iff (st : Buckets) (k : String) :
    findBucket st k = none ↔ k ∉ st.map Prod.fst := by
  induction st with
  | nil => simp [findBucket]
  | cons kv rest ih =>
    obtain ⟨k', b⟩ := kv
    by_cases h : k' = k
    · subst h; simp [findBucket]
    · simp [findBucket, h, ih, Ne.symm h]

/-- Helper: updating an existing key keeps the table size, inserting a new
key grows it by one. -/
theorem setBucket_length (st : Buckets) (k : String) (b : TokenBucket) :
    (setBucket st k b).length =
      if k ∈ st.map Prod.fst then st.length else st.length + 1 := by
  induction st with
  | nil => simp [setBucket]
  | cons kv rest ih =>
    obtain ⟨k', b'⟩ := kv
    by_cases h : k' = k
    · subst h; simp [setBucket]
    · by_cases hm : k ∈ rest.map Prod.fst <;>
        simp [setBucket, h, ih, hm, Ne.symm h]

/-- Helper: removing the keys of the first `n` entries of any permutation of
the table removes at least `n` entries. -/
theorem filter_not_take_length (l : List (String × TokenBucket)) (n : Nat)
    (le_fn : (String × TokenBucket) → (String × TokenBucket) → Bool)
    (hn : n ≤ l.length) :
    (l.filter fun kv =>
        !(((l.mergeSort le_fn).take n).map Prod.fst).contains kv.1).length + n
      ≤ l.length := by
  have hperm : (l.mergeSort le_fn).Perm l := List.mergeSort_perm l le_fn
  have hq_take : ∀ kv ∈ (l.mergeSort le_fn).take n,
      (fun kv => (((l.mergeSort le_fn).take n).map Prod.fst).contains kv.1) kv
        = true := by
    intro kv hkv
    simpa using List.mem_map_of_mem Prod.fst hkv
  have hcount_take :
      List.countP
          (fun kv => (((l.mergeSort le_fn).take n).map Prod.fst).contains kv.1)
          ((l.mergeSort le_fn).take n)
        = ((l.mergeSort le_fn).take n).length :=
    List.countP_eq_length.mpr hq_take
  have hlen_take : ((l.mergeSort le_fn).take n).length = n := by
    rw [List.length_take]
    exact min_eq_left (by rw [hperm.length_eq]; exact hn)
  have hcount_l : n ≤ List.countP
      (fun kv => (((l.mergeSort le_fn).take n).map Prod.fst).contains kv.1) l := by
    rw [← hperm.countP_eq]
    calc n = List.countP _ ((l.mergeSort le_fn).take n) :=
          (hcount_take.trans hlen_take).symm
      _ ≤ List.countP _ ((l.mergeSort le_fn).take n)
            + List.countP _ ((l.mergeSort le_fn).drop n) := Nat.le_add_right _ _
      _ = List.countP _ ((l.mergeSort le_fn).take n ++ (l.mergeSort le_fn).drop n) :=
          (List.countP_append _ _ _).symm
      _ = List.countP _ (l.mergeSort le_fn) := by rw [List.take_append_drop]
  have hfil : n ≤ (l.filter
      (fun kv => (((l.mergeSort le_fn).take n).map Prod.fst).contains kv.1)).length := by
    rw [← List.countP_eq_length_filter]
    exact hcount_l
  have hsplit := List.length_eq_length_filter_add
    (l := l) (fun kv => (((l.mergeSort le_fn).take n).map Prod.fst).contains kv.1)
  omega

/-- Helper: capacity-pressure eviction leaves the table strictly below the
ceiling whenever it was within the ceiling. -/
theorem evictForCapacity_lt (now : Nat) (st : Buckets)
    (hlen : st.length ≤ MAX_BUCKETS) :
    (evictForCapacity now st).length < MAX_BUCKETS := by
  unfold evictForCapacity
  dsimp only
  split
  case isTrue hfull =>
    have h1 : (st.filter fun kv =>
        decide (now - kv.2.last_update < DEFAULT_MAX_AGE)).length ≤ st.length :=
      List.length_filter_le _ _
    have h2 := filter_not_take_length
      (st.filter fun kv => decide (now - kv.2.last_update < DEFAULT_MAX_AGE))
      (MAX_BUCKETS / 10)
      (fun a b => a.2.last_update ≤ b.2.last_update)
      (le_trans (by norm_num [MAX_BUCKETS]) hfull)
    have hM : MAX_BUCKETS = 10000 := rfl
    omega
  case isFalse hsmall =>
    omega

/-- Helper: one `RateLimiter::check` call keeps the table within the ceiling. -/
theorem check_table_le (cfg : RateLimitConfig) (key : String) (now : Nat)
    (st : Buckets) (hlen : st.length ≤ MAX_BUCKETS) :
    (RateLimiter.check cfg st key now).2.length ≤ MAX_BUCKETS := by
  unfold RateLimiter.check
  dsimp only
  rw [setBucket_length]
  split
  case isTrue h =>
    have hev := evictForCapacity_lt now st hlen
    split
    · omega
    · omega
  case isFalse h =>
    by_cases hfind : (findBucket st key).isNone
    · have hsmall : st.length < MAX_BUCKETS := by
        rcases Nat.lt_or_ge st.length MAX_BUCKETS with hc | hc
        · exact hc
        · exact absurd ⟨hc, hfind⟩ h
      split
      · omega
      · omega
    · have hmem : key ∈ st.map Prod.fst := by
        by_contra hnm
        exact hfind (Option.isNone_iff_eq_none.mpr
          ((findBucket_eq_none_iff st key).mpr hnm))
      rw [if_pos hmem]
      exact hlen

/-- C6: for every sequence of `RateLimiter::check` calls starting from the
empty table of `RateLimiter::new`, the bucket table holds at most
`MAX_BUCKETS` (10,000) entries after each call; the over-capacity insertion
of a new key first evicts buckets older than one hour and, if still at
capacity, force-evicts the oldest ten percent by last-updated instant before
inserting (`evictForCapacity`). -/
theorem rate_limiter_table_bounded (cfg : RateLimitConfig)
    (calls : List (String × Nat)) :
    (checkSeq cfg [] calls).length ≤ MAX_BUCKETS := by
  suffices h : ∀ st : Buckets, st.length ≤ MAX_BUCKETS →
      (checkSeq cfg st calls).length ≤ MAX_BUCKETS from
    h [] (by simp [MAX_BUCKETS])
  induction calls with
  | nil => intro st hst; exact hst
  | cons c rest ih =>
    intro st hst
    obtain ⟨ck, cn⟩ := c
    exact ih _ (check_table_le cfg ck cn st hst)

end IngestionEngine
